import Mathlib

/-!
# Azure Resource Manager template deployment samples

A shallow embedding of the two Go sample programs `example.go` and
`deployTemplateExample.go`, and theorems about their behaviour.

Conventions of the embedding:

* a Go `string` is a `String`; a `*string` is an `Option String` (`none` is `nil`);
* a Go `error` is an `Option String` holding the text of `err.Error()` (`none` is `nil`);
* a Go `interface{}` holding JSON-like data is a `Value`; a `map[string]interface{}` that
  is not nil is a `GoMap`, an association list read with `GoMap.get` and written with
  `GoMap.set`; where the program writes through a `*map[string]interface{}` the argument is
  an `Option (Option GoMap)`: `none` is the nil pointer and `some none` a pointer to the
  nil map;
* a run-time panic ends the process with exit status 2;
* everything outside the program (environment variables, files, the current user, the Azure
  SDK and the service behind it) is a field of `World`, and the program is a function of it;
* what a run does is recorded as a list of `Event`s, in the order in which it happens,
  together with the exit status of the process.
-/

set_option autoImplicit false

/-! ## Values and maps -/

/-- A value stored in a Go `interface{}` by this program or by `json.Unmarshal`. -/
inductive Value where
  | null
  | bool (b : Bool)
  | num (literal : String)
  | str (s : String)
  | arr (items : List Value)
  | obj (fields : List (String × Value))

/-- A Go `map[string]interface{}` that is not nil: the entries, looked up by key with
`GoMap.get`. -/
abbrev GoMap := List (String × Value)

/-- The Go expression `m[k]` with its presence flag: the entry stored under `k`, if any. -/
def GoMap.get : GoMap → String → Option Value
  | [], _ => none
  | (k', v') :: rest, k => if k' = k then some v' else GoMap.get rest k

/-- The Go statement `m[k] = v`: replaces the entry of `k`, or adds one when there is none. -/
def GoMap.set : GoMap → String → Value → GoMap
  | [], k, v => [(k, v)]
  | (k', v') :: rest, k, v => if k' = k then (k, v) :: rest else (k', v') :: GoMap.set rest k v

/-! ## The SDK types the programs use -/

/-- The value behind `*azure.OAuthConfig`; the programs only pass it on. -/
structure OAuthConfig where
  handle : String

/-- The value behind `*azure.ServicePrincipalToken`; the programs only pass it on. -/
structure ServicePrincipalToken where
  handle : String

/-- The fields of `resources.GroupsClient` the programs set. The Go zero value is
`⟨"", none⟩`. -/
structure GroupsClient where
  SubscriptionID : String
  Authorizer : Option ServicePrincipalToken

/-- The fields of `resources.DeploymentsClient` the programs set. The Go zero value is
`⟨"", none⟩`. -/
structure DeploymentsClient where
  SubscriptionID : String
  Authorizer : Option ServicePrincipalToken

/-- The value of `resources.ResourceGroup` as the programs build it. -/
structure ResourceGroup where
  Location : Option String

/-- The value of `resources.TemplateLink`. -/
structure TemplateLink where
  URI : Option String
  ContentVersion : Option String

/-- The value of `resources.ParametersLink`. -/
structure ParametersLink where
  URI : Option String
  ContentVersion : Option String

/-- The values of `resources.DeploymentMode`; `unset` is the Go zero value. -/
inductive DeploymentMode where
  | unset
  | Incremental
  | Complete
  deriving DecidableEq

/-- The value of `resources.DeploymentProperties`. -/
structure DeploymentProperties where
  Template : Option GoMap
  TemplateLink : Option TemplateLink
  Parameters : Option GoMap
  ParametersLink : Option ParametersLink
  Mode : DeploymentMode

/-- The value of `resources.Deployment`. -/
structure Deployment where
  Properties : Option DeploymentProperties

/-- The error carried by a validation result: three string pointers. -/
structure ResourceManagementError where
  Code : Option String
  Message : Option String
  Target : Option String

/-- The value of `resources.DeploymentValidateResult`, as far as the program reads it. -/
structure DeploymentValidateResult where
  Error : Option ResourceManagementError

/-! ## The world outside the program -/

/-- Everything the programs ask of their surroundings. A Go call returning `(x, err)` and
followed by a check of `err` alone is a pair; a call whose result is used only when there
is no error is an `Except`. -/
structure World where
  /-- The Go call `os.Getenv`: the empty string for a variable that is not set. -/
  getenv : String → String
  /-- The Go call `azure.PublicCloud.OAuthConfigForTenant(tenantID)`. -/
  oauthConfigForTenant : String → OAuthConfig × Option String
  /-- The Go call `azure.NewServicePrincipalToken(config, clientID, clientSecret, endpoint)`,
  the endpoint being always `azure.PublicCloud.ResourceManagerEndpoint`. -/
  newServicePrincipalToken :
    OAuthConfig → String → String → ServicePrincipalToken × Option String
  /-- The Go call `user.Current()`: the home directory of the user, or an error. -/
  userCurrent : Except String String
  /-- The Go call `ioutil.ReadFile(path)`: the bytes of the file at `path`, or an error. -/
  readFile : String → Except String String
  /-- The Go call `json.Unmarshal(text, &fileMap)` on an empty map. -/
  jsonUnmarshal : String → Except String GoMap
  /-- The error returned by `GroupsClient.CreateOrUpdate(name, parameters)`. -/
  groupsCreateOrUpdate : GroupsClient → String → ResourceGroup → Option String
  /-- The error returned by `GroupsClient.Delete(name, nil)`. -/
  groupsDelete : GroupsClient → String → Option String
  /-- The result and error of `DeploymentsClient.Validate(group, name, deployment)`. -/
  deploymentsValidate :
    DeploymentsClient → String → String → Deployment → DeploymentValidateResult × Option String
  /-- The error returned by `DeploymentsClient.CreateOrUpdate(group, name, deployment, nil)`. -/
  deploymentsCreateOrUpdate :
    DeploymentsClient → String → String → Deployment → Option String

/-- What a run does, as seen from outside the process. -/
inductive Event where
  /-- Text written to standard output. -/
  | print (text : String)
  /-- A line read from standard input by `fmt.Scanln`. -/
  | scanln
  /-- A call of `OAuthConfigForTenant`. -/
  | oauthConfigForTenant (tenantID : String)
  /-- A call of `NewServicePrincipalToken`. -/
  | newServicePrincipalToken (config : OAuthConfig) (clientID clientSecret : String)
  /-- A call of `GroupsClient.CreateOrUpdate`. -/
  | groupsCreateOrUpdate (client : GroupsClient) (name : String) (parameters : ResourceGroup)
  /-- A call of `GroupsClient.Delete`. -/
  | groupsDelete (client : GroupsClient) (name : String)
  /-- A call of `DeploymentsClient.Validate`. -/
  | deploymentsValidate (client : DeploymentsClient) (group name : String) (d : Deployment)
  /-- A call of `DeploymentsClient.CreateOrUpdate`. -/
  | deploymentsCreateOrUpdate (client : DeploymentsClient) (group name : String) (d : Deployment)

/-- Whether the event is a call of `GroupsClient.Delete`. -/
def Event.isGroupsDelete : Event → Bool
  | .groupsDelete _ _ => true
  | _ => false

/-- Whether the event is a call of `DeploymentsClient.Validate`. -/
def Event.isValidate : Event → Bool
  | .deploymentsValidate _ _ _ _ => true
  | _ => false

/-- Whether the event is a call of `DeploymentsClient.CreateOrUpdate`. -/
def Event.isDeploy : Event → Bool
  | .deploymentsCreateOrUpdate _ _ _ _ => true
  | _ => false

/-- Whether the event is a call through one of the two resource-manager clients, the calls
that reach the remote service. -/
def Event.isClientCall : Event → Bool
  | .groupsCreateOrUpdate _ _ _ => true
  | .groupsDelete _ _ => true
  | .deploymentsValidate _ _ _ _ => true
  | .deploymentsCreateOrUpdate _ _ _ _ => true
  | _ => false

/-- The text a trace writes to standard output. -/
def printed : List Event → String
  | [] => ""
  | .print t :: rest => t ++ printed rest
  | _ :: rest => printed rest

/-- The outcome of a whole process: what it did and its exit status. -/
structure Run where
  trace : List Event
  exitCode : Nat

/-! ## Sequential programs that may stop early -/

/-- The result of running a piece of program from a state: it finished with a value, or it
stopped the enclosing computation with `e` (an exit status, or a returned error). -/
inductive Outcome (ε σ α : Type) where
  | ok (a : α) (s : σ)
  | stop (e : ε) (s : σ)

/-- A piece of program over a state `σ` that may stop early with an `ε`. -/
def Prog (ε σ α : Type) : Type := σ → Outcome ε σ α

/-- Finish with a value. -/
def Prog.pure {ε σ α : Type} (a : α) : Prog ε σ α := fun s => .ok a s

/-- Run `m`, then `f` on its value; a stop of `m` is a stop of the whole. -/
def Prog.bind {ε σ α β : Type} (m : Prog ε σ α) (f : α → Prog ε σ β) : Prog ε σ β :=
  fun s =>
    match m s with
    | .ok a s1 => f a s1
    | .stop e s1 => .stop e s1

/-- Stop the enclosing computation. -/
def Prog.stop {ε σ α : Type} (e : ε) : Prog ε σ α := fun s => .stop e s

instance (ε σ : Type) : Monad (Prog ε σ) where
  pure := Prog.pure
  bind := Prog.bind

/-- The function `printStringPtr` of `example.go`. -/
def printStringPtr (s : Option String) : String :=
  match s with
  | some v => if v ≠ "" then v else "-"
  | none => "-"

/-- The function `addElementToMap` of both programs: `(*parameter)[key] = {"value": value}`.
The result is the map the pointer points to after the call, or the message of the run-time
panic: Go panics on the dereference of a nil pointer and on the assignment to an entry of a
nil map. -/
def addElementToMap (parameter : Option (Option GoMap)) (key : String) (value : Value) :
    Except String GoMap :=
  match parameter with
  | none => .error "invalid memory address or nil pointer dereference"
  | some none => .error "assignment to entry in nil map"
  | some (some m) => .ok (m.set key (Value.obj [("value", value)]))

/-- The formatting of a `[]string` by the verb `%v`: the elements separated by one space,
between square brackets. -/
def fmtStrings (xs : List String) : String :=
  "[" ++ " ".intercalate xs ++ "]"

/-- A Go `map[string]string`: the entries, looked up by key with `StrMap.get`. -/
abbrev StrMap := List (String × String)

/-- The Go expression `m[k]` on a `map[string]string`: the empty string when `k` is absent. -/
def StrMap.get : StrMap → String → String
  | [], _ => ""
  | (k', v') :: rest, k => if k' = k then v' else StrMap.get rest k

/-- The function `parseJSONFromFile` of both programs: the pointer to the map read from the
file with a nil error, or a nil pointer with the error of `ReadFile` or `Unmarshal`. -/
def parseJSONFromFile (w : World) (filePath : String) : Option GoMap × Option String :=
  match w.readFile filePath with
  | .error err => (none, some err)
  | .ok text =>
    match w.jsonUnmarshal text with
    | .error err => (none, some err)
    | .ok fileMap => (some fileMap, none)

/-! ## The program `example.go` -/

namespace Example

/-- The package variable `location`. -/
def location : String := "westus"

/-- The package variable `groupName`. -/
def groupName : String := "your-azure-sample-group"

/-- The package variable `dnsPrefix`. -/
def dnsPrefix : String := "sample-dns-prefix"

/-- The package variable `deploymentName`. -/
def deploymentName : String := "azure-sample"

/-- The package variables a run reads or writes, and the trace of the run so far. The
variables `sshKeyPath`, `useTemplateLink` and `useParameterLink` have no initialiser in the
source and are never assigned: whoever builds the sample sets them, so they are inputs. -/
structure State where
  sshKeyPath : String
  useTemplateLink : Bool
  useParameterLink : Bool
  groupsClient : GroupsClient
  deploymentsClient : DeploymentsClient
  trace : List Event

/-- A piece of `example.go`: it may end the process with an exit status. -/
abbrev M := Prog Nat State

/-- Record an event at the end of the trace. -/
def emit (e : Event) : M Unit :=
  fun s => .ok () { s with trace := s.trace ++ [e] }

/-- Write to standard output. -/
def print (text : String) : M Unit := emit (.print text)

/-- The Go call `os.Exit(code)`. -/
def exit (code : Nat) : M Unit := Prog.stop code

/-- Read the package variables. -/
def get : M State := fun s => .ok s s

/-- A step that may panic: a run-time panic ends the process with exit status 2. -/
def orPanic {α : Type} (r : Except String α) : M α :=
  match r with
  | .ok a => Prog.pure a
  | .error _ => Prog.stop 2

/-- The function `getEnvVarOrExit`. -/
def getEnvVarOrExit (w : World) (varName : String) : M String := do
  let value := w.getenv varName
  if value = "" then
    print ("Missing environment variable " ++ varName ++ "\n")
    exit 1
  pure value

/-- The function `onErrorFail`. The result of the `Delete` call is discarded by the source,
so only the call itself is recorded. -/
def onErrorFail (err : Option String) (message : String) : M Unit :=
  match err with
  | some e => do
    print (message ++ ": " ++ e ++ "\n")
    let s ← get
    emit (.groupsDelete s.groupsClient groupName)
    exit 1
  | none => pure ()

/-- The function `createClients`. -/
def createClients (subscriptionID : String) (spToken : ServicePrincipalToken) : M Unit :=
  fun s => .ok ()
    { s with
      groupsClient := ⟨subscriptionID, some spToken⟩
      deploymentsClient := ⟨subscriptionID, some spToken⟩ }

/-- The function `init`, run by the Go runtime before `main`. -/
def init (w : World) : M Unit := do
  let subscriptionID ← getEnvVarOrExit w "AZURE_SUBSCRIPTION_ID"
  let tenantID ← getEnvVarOrExit w "AZURE_TENANT_ID"
  emit (.oauthConfigForTenant tenantID)
  let r := w.oauthConfigForTenant tenantID
  onErrorFail r.2 "OAuthConfigForTenant failed"
  let clientID ← getEnvVarOrExit w "AZURE_CLIENT_ID"
  let clientSecret ← getEnvVarOrExit w "AZURE_CLIENT_SECRET"
  emit (.newServicePrincipalToken r.1 clientID clientSecret)
  let t := w.newServicePrincipalToken r.1 clientID clientSecret
  onErrorFail t.2 "NewServicePrincipalToken failed"
  createClients subscriptionID t.1

/-- The function `createResourceGroup`. -/
def createResourceGroup (w : World) : M Unit := do
  print "Create resource group\n"
  let resourceGroupParameters : ResourceGroup := ⟨some location⟩
  let s ← get
  emit (.groupsCreateOrUpdate s.groupsClient groupName resourceGroupParameters)
  let err := w.groupsCreateOrUpdate s.groupsClient groupName resourceGroupParameters
  onErrorFail err "CreateOrUpdate failed"

/-- The function `getSSHkey` of `example.go`. -/
def getSSHkey (w : World) (sshKeyPath : String) : String × Option String :=
  let path : Except String String :=
    if sshKeyPath = "" then
      match w.userCurrent with
      | .error err => .error err
      | .ok homeDir => .ok (homeDir ++ "/.ssh/id_rsa.pub")
    else
      .ok sshKeyPath
  match path with
  | .error err => ("", some err)
  | .ok path =>
    match w.readFile path with
    | .error err => ("", some err)
    | .ok sshKey => (sshKey, none)

/-- The address of the linked template. -/
def templateURI : String :=
  "https://raw.githubusercontent.com/Azure-Samples/resource-manager-go-template-deployment/master/vmDeploymentTemplate.json"

/-- The address of the linked parameters. -/
def parameterURI : String :=
  "https://raw.githubusercontent.com/Azure-Samples/resource-manager-go-template-deployment/master/vmDeploymentParameter.json"

/-- The function `buildDeploymentParameters`. -/
def buildDeploymentParameters (w : World) : M Deployment := do
  print "Build deployment parameters\n"
  let properties : DeploymentProperties :=
    { Template := none, TemplateLink := none, Parameters := none, ParametersLink := none,
      Mode := DeploymentMode.Incremental }
  print "\tGet template\n"
  let s ← get
  let properties ←
    if s.useTemplateLink then do
      print "\tUsing template link\n"
      pure { properties with TemplateLink := some ⟨some templateURI, some "1.0.0.0"⟩ }
    else do
      print "\tUsing local template\n"
      let r := parseJSONFromFile w "vmDeploymentTemplate.json"
      onErrorFail r.2 "parseJSONFromFile failed"
      pure { properties with Template := r.1 }
  print "\tGet parameters\n"
  let properties ←
    if s.useParameterLink then do
      print "\tUsing parameter link\n"
      pure { properties with ParametersLink := some ⟨some parameterURI, some "1.0.0.0"⟩ }
    else do
      print "\tUsing local parameters\n"
      let parameter : GoMap := []
      let parameter ← orPanic
        (addElementToMap (some (some parameter)) "dnsLabelPrefix" (Value.str dnsPrefix))
      let parameter ← orPanic
        (addElementToMap (some (some parameter)) "vmName"
          (Value.str "azure-deployment-sample-vm"))
      let k := getSSHkey w s.sshKeyPath
      onErrorFail k.2 "getSSHkey failed"
      let parameter ← orPanic
        (addElementToMap (some (some parameter)) "sshKeyData" (Value.str k.1))
      pure { properties with Parameters := some parameter }
  pure { Properties := some properties }

/-- The function `printValidationError`. Reading a field through a nil `validate.Error` is a
nil pointer dereference, which ends a Go process with exit status 2 before anything is
printed. -/
def printValidationError (validate : DeploymentValidateResult) : M Unit :=
  match validate.Error with
  | some e =>
    print ("Error! Code: " ++ printStringPtr e.Code ++ "\nMessage: " ++ printStringPtr e.Message
      ++ "\nTarget: " ++ printStringPtr e.Target ++ "\n")
  | none => exit 2

/-- The function `validateDeployment`. -/
def validateDeployment (w : World) (deployment : Deployment) : M Unit := do
  print "Validate deployment template\n"
  let s ← get
  emit (.deploymentsValidate s.deploymentsClient groupName deploymentName deployment)
  let r := w.deploymentsValidate s.deploymentsClient groupName deploymentName deployment
  onErrorFail r.2 "Validate failed"
  match r.1.Error with
  | none => print "Deployment is validated! Template is syntactically correct\n"
  | some _ => do
    printValidationError r.1
    exit 1

/-- The function `deploy` of `example.go`. -/
def deploy (w : World) (deployment : Deployment) : M Unit := do
  print "Deploy\n"
  let s ← get
  emit (.deploymentsCreateOrUpdate s.deploymentsClient groupName deploymentName deployment)
  let err := w.deploymentsCreateOrUpdate s.deploymentsClient groupName deploymentName deployment
  onErrorFail err "Deploy failed"
  print "Finished deployment\n"
  print ("You can connect via ssh azureSample@" ++ dnsPrefix ++ "." ++ location
    ++ ".cloudapp.azure.com\n")

/-- The function `deleteResourceGroup`. -/
def deleteResourceGroup (w : World) : M Unit := do
  print "Delete resource group\n"
  let s ← get
  emit (.groupsDelete s.groupsClient groupName)
  let err := w.groupsDelete s.groupsClient groupName
  onErrorFail err "Delete failed"

/-- The function `main` of `example.go`. -/
def main (w : World) : M Unit := do
  createResourceGroup w
  let d ← buildDeploymentParameters w
  validateDeployment w d
  deploy w d
  print "Press enter to delete the resources created in this sample..."
  emit Event.scanln
  deleteResourceGroup w

/-- The state in which the process starts: the three inputs as given, both clients at their
zero value, nothing done yet. -/
def initialState (sshKeyPath : String) (useTemplateLink useParameterLink : Bool) : State :=
  { sshKeyPath := sshKeyPath, useTemplateLink := useTemplateLink,
    useParameterLink := useParameterLink, groupsClient := ⟨"", none⟩,
    deploymentsClient := ⟨"", none⟩, trace := [] }

/-- The trace and exit status of an outcome: status 0 when the program ran to its end. -/
def finish {α : Type} : Outcome Nat State α → Run
  | .ok _ s => ⟨s.trace, 0⟩
  | .stop code s => ⟨s.trace, code⟩

/-- A whole run of `example.go`: `init`, then `main`, from the initial state. -/
def run (w : World) (sshKeyPath : String) (useTemplateLink useParameterLink : Bool) : Run :=
  finish ((do init w; main w : M Unit) (initialState sshKeyPath useTemplateLink useParameterLink))

end Example

/-! ## The program `deployTemplateExample.go` -/

namespace DeployTemplateExample

/-- How `deploy` stops before its last line: it returns an error, or the process panics. -/
inductive Stop where
  | returned (err : String)
  | panicked (message : String)

/-- A piece of `deploy`: the state is the trace so far. -/
abbrev M := Prog Stop (List Event)

/-- Record an event at the end of the trace. -/
def emit (e : Event) : M Unit := fun t => .ok () (t ++ [e])

/-- Write to standard output. -/
def print (text : String) : M Unit := emit (.print text)

/-- The Go statement `if err != nil { return err }`. -/
def returnIfError (err : Option String) : M Unit :=
  match err with
  | some e => Prog.stop (Stop.returned e)
  | none => Prog.pure ()

/-- A step that may panic. -/
def orPanic {α : Type} (r : Except String α) : M α :=
  match r with
  | .ok a => Prog.pure a
  | .error message => Prog.stop (Stop.panicked message)

/-- The function `getSSHkey` of `deployTemplateExample.go`; the argument is the slice behind
the pointer. -/
def getSSHkey (w : World) (sshKeyPath : List String) : String × Option String :=
  let path : String :=
    match sshKeyPath with
    | [] => ".ssh/id_rsa.pub"
    | p :: _ => p
  match w.userCurrent with
  | .error err => ("", some err)
  | .ok homeDir =>
    match w.readFile (homeDir ++ "/" ++ path) with
    | .error err => ("", some err)
    | .ok sshKey => (sshKey, none)

/-- The loop of `checkEnvVar`: the names appended to `missingVars`, the argument being the
entries of the map in the order in which the `range` statement visits them. -/
def missingVars (envVars : StrMap) : List String :=
  envVars.foldl (fun acc e => if e.2 = "" then acc ++ [e.1] else acc) []

/-- The function `checkEnvVar`; the argument is the entries of the map behind the pointer, in
the order in which the `range` statement visits them. -/
def checkEnvVar (envVars : StrMap) : Option String :=
  if (missingVars envVars).length > 0 then
    some ("Missing environment variables " ++ fmtStrings (missingVars envVars))
  else
    none

/-- The body of `deploy`, stopping at each `return err`. The argument `rangeOrder` is the
order in which `range` visits a map, which Go leaves open. -/
def deployBody (w : World) (rangeOrder : StrMap → StrMap) (resourceGroupName : String)
    (sshKeyPath : List String) : M Unit := do
  let dnsPrefix := "sample-dns-prefix"
  print "Get credentials and token...\n"
  let credentials : StrMap :=
    [("AZURE_CLIENT_ID", w.getenv "AZURE_CLIENT_ID"),
     ("AZURE_CLIENT_SECRET", w.getenv "AZURE_CLIENT_SECRET"),
     ("AZURE_SUBSCRIPTION_ID", w.getenv "AZURE_SUBSCRIPTION_ID"),
     ("AZURE_TENANT_ID", w.getenv "AZURE_TENANT_ID")]
  returnIfError (checkEnvVar (rangeOrder credentials))
  emit (.oauthConfigForTenant (credentials.get "AZURE_TENANT_ID"))
  let r := w.oauthConfigForTenant (credentials.get "AZURE_TENANT_ID")
  returnIfError r.2
  emit (.newServicePrincipalToken r.1 (credentials.get "AZURE_CLIENT_ID")
    (credentials.get "AZURE_CLIENT_SECRET"))
  let t := w.newServicePrincipalToken r.1 (credentials.get "AZURE_CLIENT_ID")
    (credentials.get "AZURE_CLIENT_SECRET")
  returnIfError t.2
  print "Create resource group...\n"
  let groupClient : GroupsClient := ⟨credentials.get "AZURE_SUBSCRIPTION_ID", some t.1⟩
  let location := "westus"
  let resourceGroupParameters : ResourceGroup := ⟨some location⟩
  emit (.groupsCreateOrUpdate groupClient resourceGroupName resourceGroupParameters)
  returnIfError (w.groupsCreateOrUpdate groupClient resourceGroupName resourceGroupParameters)
  print "Get template...\n"
  let template := parseJSONFromFile w "vmDeploymentTemplate.json"
  returnIfError template.2
  print "Get parameters...\n"
  let parameter : GoMap := []
  let parameter ← orPanic
    (addElementToMap (some (some parameter)) "dnsLabelPrefix" (Value.str dnsPrefix))
  let parameter ← orPanic
    (addElementToMap (some (some parameter)) "vmName" (Value.str "azure-deployment-sample-vm"))
  let k := getSSHkey w sshKeyPath
  returnIfError k.2
  let parameter ← orPanic
    (addElementToMap (some (some parameter)) "sshKeyData" (Value.str k.1))
  let properties : DeploymentProperties :=
    { Template := template.1, TemplateLink := none, Parameters := some parameter,
      ParametersLink := none, Mode := DeploymentMode.Incremental }
  let parameters : Deployment := { Properties := some properties }
  let deploymentsClient : DeploymentsClient :=
    ⟨credentials.get "AZURE_SUBSCRIPTION_ID", some t.1⟩
  print "Deploying...\n"
  emit (.deploymentsCreateOrUpdate deploymentsClient resourceGroupName "azure-sample" parameters)
  returnIfError
    (w.deploymentsCreateOrUpdate deploymentsClient resourceGroupName "azure-sample" parameters)
  print "Finished deployment\n"
  print ("You can connect via ssh azureSample@" ++ dnsPrefix ++ "." ++ location
    ++ ".cloudapp.azure.com\n")

/-- The function `deploy` of `deployTemplateExample.go`: how the call ends, and the trace
extended by what it did. The call returns an error value (`.ok none` for nil, `.ok (some
err)` otherwise), or the process panics (`.error message`). -/
def deploy (w : World) (rangeOrder : StrMap → StrMap) (resourceGroupName : String)
    (sshKeyPath : List String) (t : List Event) :
    Except String (Option String) × List Event :=
  match deployBody w rangeOrder resourceGroupName sshKeyPath t with
  | .ok _ t1 => (.ok none, t1)
  | .stop (Stop.returned err) t1 => (.ok (some err), t1)
  | .stop (Stop.panicked message) t1 => (.error message, t1)

/-- The function `main` of `deployTemplateExample.go`, as a whole run of the process: when
`deploy` returns, `main` returns too, with or without the error line, and the exit status
is 0; a panic in `deploy` ends the process with status 2. -/
def main (w : World) (rangeOrder : StrMap → StrMap) : Run :=
  let t0 : List Event := [Event.print "Azure Resource Manager Template Deployment Sample\n"]
  let r := deploy w rangeOrder "exampleresourcegroup" [] t0
  match r.1 with
  | .ok (some err) => ⟨r.2 ++ [Event.print ("Error: " ++ err ++ "\n")], 0⟩
  | .ok none => ⟨r.2, 0⟩
  | .error _ => ⟨r.2, 2⟩

/-- A piece of `deploy` never panics, whatever the trace it starts from. -/
def NoPanic {α : Type} (m : M α) : Prop :=
  ∀ (t t1 : List Event) (message : String), m t ≠ Outcome.stop (Stop.panicked message) t1

end DeployTemplateExample

/-! ## Vocabulary of the statements -/

/-- The state an outcome ends in. -/
def Outcome.state {ε σ α : Type} : Outcome ε σ α → σ
  | .ok _ s => s
  | .stop _ s => s

/-- What reading the file at `path` gives a caller of `getSSHkey` when the path is the one
read: the bytes of the file unchanged with a nil error, or the empty string with the error. -/
def fileResult (w : World) (path : String) : String × Option String :=
  match w.readFile path with
  | .ok content => (content, none)
  | .error err => ("", some err)

/-- The text `output` names the variable `v`: the name occurs in it. -/
def names (output v : String) : Prop := v.data <:+: output.data

instance (output v : String) : Decidable (names output v) :=
  inferInstanceAs (Decidable (v.data <:+: output.data))

/-- The four credential variables, in the order in which `init` of `example.go` reads them. -/
def credentialVars : List String :=
  ["AZURE_SUBSCRIPTION_ID", "AZURE_TENANT_ID", "AZURE_CLIENT_ID", "AZURE_CLIENT_SECRET"]

/-- The first credential variable, in the order of `credentialVars`, that is empty. -/
def firstEmpty (w : World) : Option String :=
  credentialVars.find? (fun v => decide (w.getenv v = ""))

namespace Example

/-- A piece of program adds only events that are neither a `Validate` call nor a deployment
`CreateOrUpdate` call, whatever the state it starts in. -/
def Quiet {α : Type} (m : M α) : Prop :=
  ∀ s : State, ∃ l : List Event, (m s).state.trace = s.trace ++ l ∧
    ∀ e ∈ l, e.isValidate = false ∧ e.isDeploy = false

/-- The run up to the point where `main` calls `validateDeployment`. -/
def upToValidation (w : World) : M Deployment := do
  init w
  createResourceGroup w
  buildDeploymentParameters w

/-- The rest of `main`, from the call of `validateDeployment` on. -/
def fromValidation (w : World) (d : Deployment) : M Unit := do
  validateDeployment w d
  deploy w d
  print "Press enter to delete the resources created in this sample..."
  emit Event.scanln
  deleteResourceGroup w

end Example

/-! ## Concrete worlds -/

/-- A world in which everything succeeds: the four variables are set, the template and the
default key file exist, and every SDK call returns without error. -/
def sampleWorld : World where
  getenv := fun v =>
    if v = "AZURE_SUBSCRIPTION_ID" then "sub-1"
    else if v = "AZURE_TENANT_ID" then "tenant-1"
    else if v = "AZURE_CLIENT_ID" then "client-1"
    else if v = "AZURE_CLIENT_SECRET" then "secret-1"
    else ""
  oauthConfigForTenant := fun t => (⟨t⟩, none)
  newServicePrincipalToken := fun _ clientID _ => (⟨clientID⟩, none)
  userCurrent := .ok "/home/user"
  readFile := fun p =>
    if p = "/home/user/.ssh/id_rsa.pub" then .ok "ssh-rsa AAAA user@host\n"
    else if p = "vmDeploymentTemplate.json" then .ok "\x7b\x7d"
    else if p = "/tmp/key.pub" then .ok "ssh-rsa BBBB other@host\n"
    else .error ("open " ++ p ++ ": no such file or directory")
  jsonUnmarshal := fun t =>
    if t = "\x7b\x7d" then .ok [] else .error "unexpected end of JSON input"
  groupsCreateOrUpdate := fun _ _ _ => none
  groupsDelete := fun _ _ => none
  deploymentsValidate := fun _ _ _ _ => (⟨none⟩, none)
  deploymentsCreateOrUpdate := fun _ _ _ _ => none

/-- The sample world with `AZURE_SUBSCRIPTION_ID` and `AZURE_TENANT_ID` both empty. -/
def worldTwoMissing : World :=
  { sampleWorld with
    getenv := fun v =>
      if v = "AZURE_CLIENT_ID" then "client-1"
      else if v = "AZURE_CLIENT_SECRET" then "secret-1"
      else "" }

/-- The sample world with only `AZURE_CLIENT_SECRET` empty. -/
def worldNoSecret : World :=
  { sampleWorld with
    getenv := fun v =>
      if v = "AZURE_SUBSCRIPTION_ID" then "sub-1"
      else if v = "AZURE_TENANT_ID" then "tenant-1"
      else if v = "AZURE_CLIENT_ID" then "client-1"
      else "" }

/-- The sample world with no environment variable set. -/
def worldNoCredentials : World :=
  { sampleWorld with getenv := fun _ => "" }

/-- The sample world in which `OAuthConfigForTenant` returns an error. -/
def worldOAuthFails : World :=
  { sampleWorld with oauthConfigForTenant := fun t => (⟨t⟩, some "parse failure") }

/-- The sample world in which `Validate` returns, without a call error, a result whose
`Error` is set. -/
def worldInvalidTemplate : World :=
  { sampleWorld with
    deploymentsValidate := fun _ _ _ _ =>
      (⟨some ⟨some "InvalidTemplate", some "Deployment template validation failed", none⟩⟩,
        none) }

/-- The deployments client of `example.go` in the sample world, once `createClients` ran. -/
def sampleDeploymentsClient : DeploymentsClient := ⟨"sub-1", some ⟨"client-1"⟩⟩

/-- The groups client of `example.go` in the sample world, once `createClients` ran. -/
def sampleGroupsClient : GroupsClient := ⟨"sub-1", some ⟨"client-1"⟩⟩

/-- The deployment `buildDeploymentParameters` builds in the sample world when neither link
is used and the key is read from the default path. -/
def sampleDeployment : Deployment :=
  { Properties := some
      { Template := some []
        TemplateLink := none
        Parameters := some
          [("dnsLabelPrefix", Value.obj [("value", Value.str "sample-dns-prefix")]),
           ("vmName", Value.obj [("value", Value.str "azure-deployment-sample-vm")]),
           ("sshKeyData", Value.obj [("value", Value.str "ssh-rsa AAAA user@host\n")])]
        ParametersLink := none
        Mode := DeploymentMode.Incremental } }

/-! ## Lemmas on maps -/

theorem GoMap.get_set_self (m : GoMap) (k : String) (v : Value) :
    (m.set k v).get k = some v := by
  induction m with
  | nil => simp [GoMap.set, GoMap.get]
  | cons e rest ih =>
    obtain ⟨k', v'⟩ := e
    by_cases h : k' = k
    · simp [GoMap.set, GoMap.get, h]
    · simp [GoMap.set, GoMap.get, h, ih]

theorem GoMap.get_set_other (m : GoMap) (k k' : String) (v : Value) (h : k' ≠ k) :
    (m.set k v).get k' = m.get k' := by
  induction m with
  | nil => simp [GoMap.set, GoMap.get, h.symm]
  | cons e rest ih =>
    obtain ⟨k0, v0⟩ := e
    by_cases h0 : k0 = k
    · subst h0
      simp [GoMap.set, GoMap.get, h.symm]
    · by_cases h1 : k0 = k'
      · subst h1
        simp [GoMap.set, GoMap.get, h0]
      · simp [GoMap.set, GoMap.get, h0, h1, ih]

/-! ## Lemmas on running programs -/

theorem prog_bind_apply {ε σ α β : Type} (m : Prog ε σ α) (f : α → Prog ε σ β)
    (s : σ) :
    (m >>= f) s =
      match m s with
      | .ok a s1 => f a s1
      | .stop e s1 => .stop e s1 := rfl

theorem prog_pure_apply {ε σ α : Type} (a : α) (s : σ) :
    (pure a : Prog ε σ α) s = .ok a s := rfl

theorem prog_bind_assoc {ε σ α β γ : Type} (m : Prog ε σ α) (f : α → Prog ε σ β)
    (g : β → Prog ε σ γ) : (m >>= f) >>= g = m >>= fun a => f a >>= g := by
  funext s
  simp only [prog_bind_apply]
  cases m s <;> rfl

/-! ## Lemmas on `checkEnvVar` -/

theorem missingVars_foldl (envVars : StrMap) (acc : List String) :
    envVars.foldl (fun acc e => if e.2 = "" then acc ++ [e.1] else acc) acc =
      acc ++ (envVars.filter (fun e => decide (e.2 = ""))).map Prod.fst := by
  induction envVars generalizing acc with
  | nil => simp
  | cons e rest ih =>
    by_cases h : e.2 = ""
    · simp [List.foldl_cons, ih, h]
    · simp [List.foldl_cons, ih, h]

theorem missingVars_eq (envVars : StrMap) :
    DeployTemplateExample.missingVars envVars =
      (envVars.filter (fun e => decide (e.2 = ""))).map Prod.fst := by
  unfold DeployTemplateExample.missingVars
  rw [missingVars_foldl]
  simp

theorem mem_missingVars (envVars : StrMap) (n : String) :
    n ∈ DeployTemplateExample.missingVars envVars ↔ (n, "") ∈ envVars := by
  rw [missingVars_eq]
  constructor
  · intro h
    obtain ⟨e, he, rfl⟩ := List.mem_map.mp h
    obtain ⟨hmem, hempty⟩ := List.mem_filter.mp he
    have h2 : e.2 = "" := of_decide_eq_true hempty
    obtain ⟨k, v⟩ := e
    simp only at h2
    subst h2
    exact hmem
  · intro h
    exact List.mem_map.mpr ⟨(n, ""), List.mem_filter.mpr ⟨h, by simp⟩, rfl⟩

theorem missingVars_nodup (envVars : StrMap) (hkeys : (envVars.map Prod.fst).Nodup) :
    (DeployTemplateExample.missingVars envVars).Nodup := by
  rw [missingVars_eq]
  exact List.Nodup.sublist (List.Sublist.map _ (List.filter_sublist _)) hkeys

/-! ## The claims -/

/-- C1 (as stated, refuted): a nil map is a parameter map, and `addElementToMap` called with
a pointer to it panics on the assignment, so there is no map after the call in which to
look up the key. -/
theorem C1_nil_map_counterexample :
    addElementToMap (some none) "vmName" (Value.str "vm") =
      .error "assignment to entry in nil map" ∧
    ¬ ∃ m2 : GoMap, addElementToMap (some none) "vmName" (Value.str "vm") = .ok m2 ∧
        m2.get "vmName" = some (Value.obj [("value", Value.str "vm")]) := by
  refine ⟨rfl, ?_⟩
  rintro ⟨m2, h, -⟩
  cases h

/-- C1 (amended): for every parameter map `m` that is not nil, `addElementToMap(&m, k, v)`
returns without a panic, and afterwards the entry of `k` is the one-entry map
`{"value": v}`, whatever was stored under `k` before, and every other key has the entry it
had before the call. -/
theorem C1_addElementToMap_shape (m : GoMap) (k : String) (v : Value) :
    ∃ m2 : GoMap, addElementToMap (some (some m)) k v = .ok m2 ∧
      m2.get k = some (Value.obj [("value", v)]) ∧
      ∀ k2 : String, k2 ≠ k → m2.get k2 = m.get k2 :=
  ⟨_, rfl, GoMap.get_set_self m k _, fun k2 h => GoMap.get_set_other m k k2 _ h⟩

/-- C1 (amended), at a map that already has an entry for the key and one for another key. -/
theorem C1_addElementToMap_shape_witness :
    ∃ m2 : GoMap,
      addElementToMap (some (some [("vmName", Value.str "old"), ("other", Value.null)]))
        "vmName" (Value.obj [("nested", Value.str "x")]) = .ok m2 ∧
      m2.get "vmName" = some (Value.obj [("value", Value.obj [("nested", Value.str "x")])]) ∧
      "other" ≠ "vmName" ∧
      m2.get "other" = GoMap.get [("vmName", Value.str "old"), ("other", Value.null)] "other" :=
  match C1_addElementToMap_shape [("vmName", Value.str "old"), ("other", Value.null)]
      "vmName" (Value.obj [("nested", Value.str "x")]) with
  | ⟨m2, h1, h2, h3⟩ => ⟨m2, h1, h2, by decide, h3 "other" (by decide)⟩

/-- C2: for a map with distinct keys, visited in any order, `checkEnvVar` returns an error
exactly when some value is empty; the error is then the text
`Missing environment variables ` followed by the list `missingVars` in the format of `%v`,
and that list holds each name whose value is empty once and no other name. -/
theorem C2_checkEnvVar_missing (envVars : StrMap) (hkeys : (envVars.map Prod.fst).Nodup) :
    (DeployTemplateExample.checkEnvVar envVars ≠ none ↔ ∃ e ∈ envVars, e.2 = "") ∧
    (DeployTemplateExample.checkEnvVar envVars ≠ none →
      DeployTemplateExample.checkEnvVar envVars =
        some ("Missing environment variables " ++
          fmtStrings (DeployTemplateExample.missingVars envVars))) ∧
    (DeployTemplateExample.missingVars envVars).Nodup ∧
    (∀ n : String, n ∈ DeployTemplateExample.missingVars envVars ↔ (n, "") ∈ envVars) := by
  refine ⟨?_, ?_, missingVars_nodup envVars hkeys, mem_missingVars envVars⟩
  · unfold DeployTemplateExample.checkEnvVar
    constructor
    · intro h
      by_cases hl : (DeployTemplateExample.missingVars envVars).length > 0
      · obtain ⟨n, hn⟩ := List.exists_mem_of_length_pos hl
        exact ⟨(n, ""), (mem_missingVars envVars n).mp hn, rfl⟩
      · simp [hl] at h
    · rintro ⟨e, he, hempty⟩
      obtain ⟨n, v⟩ := e
      simp only at hempty
      subst hempty
      have hn : n ∈ DeployTemplateExample.missingVars envVars :=
        (mem_missingVars envVars n).mpr he
      have hl : (DeployTemplateExample.missingVars envVars).length > 0 := List.length_pos_of_mem hn
      simp [hl]
  · intro h
    unfold DeployTemplateExample.checkEnvVar at h ⊢
    by_cases hl : (DeployTemplateExample.missingVars envVars).length > 0
    · simp [hl]
    · simp [hl] at h

/-- C2, at a map of three variables of which two are empty. -/
theorem C2_checkEnvVar_missing_witness :
    DeployTemplateExample.checkEnvVar [("B", ""), ("A", "set"), ("C", "")]
      = some "Missing environment variables [B C]" ∧
    DeployTemplateExample.missingVars [("B", ""), ("A", "set"), ("C", "")] = ["B", "C"] ∧
    (DeployTemplateExample.checkEnvVar [("B", ""), ("A", "set"), ("C", "")] ≠ none ↔
      ∃ e ∈ ([("B", ""), ("A", "set"), ("C", "")] : StrMap), e.2 = "") :=
  ⟨by decide, by decide,
    (C2_checkEnvVar_missing [("B", ""), ("A", "set"), ("C", "")] (by decide)).1⟩

/-! ## Lemmas on the steps of `example.go` -/

theorem emit_apply (e : Event) (s : Example.State) :
    Example.emit e s = .ok () { s with trace := s.trace ++ [e] } := rfl

theorem print_apply (t : String) (s : Example.State) :
    Example.print t s = .ok () { s with trace := s.trace ++ [Event.print t] } := rfl

theorem get_apply (s : Example.State) : Example.get s = .ok s s := rfl

theorem exit_apply (c : Nat) (s : Example.State) : Example.exit c s = .stop c s := rfl

theorem getEnvVarOrExit_apply (w : World) (v : String) (s : Example.State) :
    Example.getEnvVarOrExit w v s =
      if w.getenv v = "" then
        .stop 1 { s with
          trace := s.trace ++ [Event.print ("Missing environment variable " ++ v ++ "\n")] }
      else .ok (w.getenv v) s := by
  unfold Example.getEnvVarOrExit
  by_cases h : w.getenv v = "" <;>
    simp [h, prog_bind_apply, prog_pure_apply, print_apply, exit_apply]

theorem onErrorFail_some (e : String) (msg : String) (s : Example.State) :
    Example.onErrorFail (some e) msg s =
      .stop 1 { s with
        trace := s.trace ++ [Event.print (msg ++ ": " ++ e ++ "\n"),
          Event.groupsDelete s.groupsClient Example.groupName] } := by
  simp [Example.onErrorFail, prog_bind_apply, print_apply, emit_apply, exit_apply, get_apply]

theorem onErrorFail_none (msg : String) (s : Example.State) :
    Example.onErrorFail none msg s = .ok () s := rfl

theorem printStringPtr_dash_iff (p : Option String) :
    printStringPtr p = "-" ↔ (p = none ∨ p = some "" ∨ p = some "-") := by
  cases p with
  | none => simp [printStringPtr]
  | some v =>
    by_cases h : v = ""
    · simp [printStringPtr, h]
    · simp [printStringPtr, h]

/-- C4 (as stated, refuted): the pointer to the string `-` is neither nil nor a pointer to the
empty string, and `printStringPtr` returns `-` for it. -/
theorem C4_printStringPtr_dash_counterexample :
    ¬ (printStringPtr (some "-") = "-" ↔
        ((some "-" : Option String) = none ∨ (some "-" : Option String) = some "")) := by
  decide

/-- C4 (amended): for an error with fields `c`, `m`, `t`, `printValidationError` prints
exactly `Error! Code: <c>\nMessage: <m>\nTarget: <t>\n`, each field shown by
`printStringPtr`; `printStringPtr` returns `-` exactly when its argument is nil, points to
the empty string, or points to the string `-` itself, and returns the pointed-to string
unchanged whenever that string is not empty. -/
theorem C4_printValidationError_output (c m t : Option String) (s : Example.State) :
    Example.printValidationError ⟨some ⟨c, m, t⟩⟩ s =
      Outcome.ok ()
        { s with
          trace := s.trace ++ [Event.print ("Error! Code: " ++ printStringPtr c ++ "\nMessage: "
            ++ printStringPtr m ++ "\nTarget: " ++ printStringPtr t ++ "\n")] } ∧
    (∀ p : Option String, printStringPtr p = "-" ↔ (p = none ∨ p = some "" ∨ p = some "-")) ∧
    (∀ v : String, v ≠ "" → printStringPtr (some v) = v) := by
  refine ⟨rfl, printStringPtr_dash_iff, ?_⟩
  intro v hv
  simp [printStringPtr, hv]

/-- C4 (amended), at an error with a code, an empty message and no target. -/
theorem C4_printValidationError_output_witness :
    printed (Example.printValidationError ⟨some ⟨some "InvalidTemplate", some "", none⟩⟩
      (Example.initialState "" false false)).state.trace
      = "Error! Code: InvalidTemplate\nMessage: -\nTarget: -\n" ∧
    "InvalidTemplate" ≠ "" ∧ printStringPtr (some "InvalidTemplate") = "InvalidTemplate" :=
  ⟨by
      rw [(C4_printValidationError_output (some "InvalidTemplate") (some "") none
        (Example.initialState "" false false)).1]
      decide,
    by decide,
    (C4_printValidationError_output none none none (Example.initialState "" false false)).2.2
      "InvalidTemplate" (by decide)⟩

/-- C6 (as stated, refuted): in `deployTemplateExample.go` an explicit path is not read as
given. The file `/tmp/key.pub` exists, and `getSSHkey` called with that path returns an
error, having looked for `/home/user//tmp/key.pub`. -/
theorem C6_getSSHkey_explicit_path_counterexample :
    sampleWorld.readFile "/tmp/key.pub" = .ok "ssh-rsa BBBB other@host\n" ∧
    DeployTemplateExample.getSSHkey sampleWorld ["/tmp/key.pub"] =
      ("", some "open /home/user//tmp/key.pub: no such file or directory") := by
  constructor <;> rfl

/-- C6 (amended): with a home directory `home`, `getSSHkey` of `example.go` reads
`home/.ssh/id_rsa.pub` when the path is empty and the file at exactly `p` when `p` is not
empty; `getSSHkey` of `deployTemplateExample.go` reads `home/.ssh/id_rsa.pub` when no path
is given and `home/p` when a path `p` is given. In each case the result is the content of
that file unchanged with a nil error, or the empty string with the error of the read. -/
theorem C6_getSSHkey_paths (w : World) (home p : String) (rest : List String)
    (hhome : w.userCurrent = .ok home) :
    Example.getSSHkey w "" = fileResult w (home ++ "/.ssh/id_rsa.pub") ∧
    (p ≠ "" → Example.getSSHkey w p = fileResult w p) ∧
    DeployTemplateExample.getSSHkey w [] = fileResult w (home ++ "/.ssh/id_rsa.pub") ∧
    DeployTemplateExample.getSSHkey w (p :: rest) = fileResult w (home ++ "/" ++ p) := by
  refine ⟨?_, ?_, ?_, ?_⟩
  · simp only [Example.getSSHkey, hhome, fileResult, if_true]
    cases w.readFile (home ++ "/.ssh/id_rsa.pub") <;> rfl
  · intro hp
    simp only [Example.getSSHkey, hp, fileResult, if_false]
    cases w.readFile p <;> rfl
  · have hpath : home ++ "/" ++ ".ssh/id_rsa.pub" = home ++ "/.ssh/id_rsa.pub" := by
      rw [String.append_assoc]
      rfl
    simp only [DeployTemplateExample.getSSHkey, hhome, fileResult, hpath]
    cases w.readFile (home ++ "/.ssh/id_rsa.pub") <;> rfl
  · simp only [DeployTemplateExample.getSSHkey, hhome, fileResult]
    cases w.readFile (home ++ "/" ++ p) <;> rfl

/-- C6 (amended), in the sample world: the default key is read from the home directory by
both programs, and the path `/tmp/key.pub` is read as given by `example.go`. -/
theorem C6_getSSHkey_paths_witness :
    sampleWorld.userCurrent = .ok "/home/user" ∧
    Example.getSSHkey sampleWorld "" =
      fileResult sampleWorld ("/home/user" ++ "/.ssh/id_rsa.pub") ∧
    "/tmp/key.pub" ≠ "" ∧
    Example.getSSHkey sampleWorld "/tmp/key.pub" = fileResult sampleWorld "/tmp/key.pub" ∧
    fileResult sampleWorld "/tmp/key.pub" = ("ssh-rsa BBBB other@host\n", none) :=
  ⟨rfl, (C6_getSSHkey_paths sampleWorld "/home/user" "/tmp/key.pub" [] rfl).1, by decide,
    (C6_getSSHkey_paths sampleWorld "/home/user" "/tmp/key.pub" [] rfl).2.1 (by decide), rfl⟩

/-! The function `deploy` of `deployTemplateExample.go` never panics: the only step that
could is `addElementToMap`, and it is called on the address of a map that is not nil. -/

theorem noPanic_pure {α : Type} (a : α) :
    DeployTemplateExample.NoPanic (pure a : DeployTemplateExample.M α) := by
  intro t t1 message h
  cases h

theorem noPanic_bind {α β : Type} {m : DeployTemplateExample.M α}
    {f : α → DeployTemplateExample.M β} (hm : DeployTemplateExample.NoPanic m)
    (hf : ∀ a, DeployTemplateExample.NoPanic (f a)) :
    DeployTemplateExample.NoPanic (m >>= f) := by
  intro t t1 message h
  rw [prog_bind_apply] at h
  cases hms : m t with
  | ok a t2 =>
    rw [hms] at h
    exact hf a t2 t1 message h
  | stop e t2 =>
    rw [hms] at h
    simp only [Outcome.stop.injEq] at h
    obtain ⟨rfl, rfl⟩ := h
    exact hm t t2 message hms

theorem noPanic_emit (e : Event) : DeployTemplateExample.NoPanic (DeployTemplateExample.emit e) := by
  intro t t1 message h
  cases h

theorem noPanic_print (text : String) :
    DeployTemplateExample.NoPanic (DeployTemplateExample.print text) :=
  noPanic_emit _

theorem noPanic_returnIfError (err : Option String) :
    DeployTemplateExample.NoPanic (DeployTemplateExample.returnIfError err) := by
  intro t t1 message h
  cases err with
  | none => cases h
  | some e => cases h

theorem noPanic_addElementToMap (m : GoMap) (k : String) (v : Value) :
    DeployTemplateExample.NoPanic
      (DeployTemplateExample.orPanic (addElementToMap (some (some m)) k v)) := by
  intro t t1 message h
  cases h

theorem noPanic_deployBody (w : World) (rangeOrder : StrMap → StrMap)
    (resourceGroupName : String) (sshKeyPath : List String) :
    DeployTemplateExample.NoPanic
      (DeployTemplateExample.deployBody w rangeOrder resourceGroupName sshKeyPath) := by
  unfold DeployTemplateExample.deployBody
  repeat (first
    | exact noPanic_print _
    | exact noPanic_emit _
    | exact noPanic_returnIfError _
    | exact noPanic_addElementToMap _ _ _
    | exact noPanic_pure _
    | apply noPanic_bind
    | intro _
    | dsimp only)

theorem deploy_ne_panic (w : World) (rangeOrder : StrMap → StrMap)
    (resourceGroupName : String) (sshKeyPath : List String) (t : List Event)
    (message : String) :
    (DeployTemplateExample.deploy w rangeOrder resourceGroupName sshKeyPath t).1 ≠
      .error message := by
  unfold DeployTemplateExample.deploy
  cases hb : DeployTemplateExample.deployBody w rangeOrder resourceGroupName sshKeyPath t with
  | ok a t1 => simp
  | stop e t1 =>
    cases e with
    | returned err => simp
    | panicked msg =>
      exact absurd hb (noPanic_deployBody w rangeOrder resourceGroupName sshKeyPath t t1 msg)

/-- C8 (as stated, refuted): with no credential variable set, `deploy` returns a non-nil
error and the process still ends with exit status 0. -/
theorem C8_exit_status_counterexample :
    (DeployTemplateExample.deploy worldNoCredentials id "exampleresourcegroup" []
      [Event.print "Azure Resource Manager Template Deployment Sample\n"]).1 =
      .ok (some ("Missing environment variables "
        ++ "[AZURE_CLIENT_ID AZURE_CLIENT_SECRET AZURE_SUBSCRIPTION_ID AZURE_TENANT_ID]")) ∧
    (DeployTemplateExample.main worldNoCredentials id).exitCode = 0 := by
  constructor <;> rfl

/-- C8 (amended): in `deployTemplateExample.go` the process ends with exit status 0 in every
run, whether `deploy` returned nil or an error; when `deploy` returns an error, `main` adds
the line `Error: <err>` to what `deploy` did, and nothing else. -/
theorem C8_main_always_exits_zero (w : World) (rangeOrder : StrMap → StrMap) :
    (DeployTemplateExample.main w rangeOrder).exitCode = 0 ∧
    ∀ err : String,
      (DeployTemplateExample.deploy w rangeOrder "exampleresourcegroup" []
        [Event.print "Azure Resource Manager Template Deployment Sample\n"]).1 =
          .ok (some err) →
      (DeployTemplateExample.main w rangeOrder).trace =
        (DeployTemplateExample.deploy w rangeOrder "exampleresourcegroup" []
          [Event.print "Azure Resource Manager Template Deployment Sample\n"]).2
          ++ [Event.print ("Error: " ++ err ++ "\n")] := by
  constructor
  · unfold DeployTemplateExample.main
    dsimp only
    split
    · rfl
    · rfl
    · next message h => exact absurd h (deploy_ne_panic w rangeOrder _ _ _ message)
  · intro err h
    unfold DeployTemplateExample.main
    dsimp only
    rw [h]

/-- C8 (amended), in the world with no credential variable set. -/
theorem C8_main_always_exits_zero_witness :
    (DeployTemplateExample.main worldNoCredentials id).exitCode = 0 ∧
    (DeployTemplateExample.deploy worldNoCredentials id "exampleresourcegroup" []
        [Event.print "Azure Resource Manager Template Deployment Sample\n"]).1 =
      .ok (some ("Missing environment variables "
        ++ "[AZURE_CLIENT_ID AZURE_CLIENT_SECRET AZURE_SUBSCRIPTION_ID AZURE_TENANT_ID]")) ∧
    (DeployTemplateExample.main worldNoCredentials id).trace =
      (DeployTemplateExample.deploy worldNoCredentials id "exampleresourcegroup" []
          [Event.print "Azure Resource Manager Template Deployment Sample\n"]).2
        ++ [Event.print ("Error: " ++ ("Missing environment variables "
          ++ "[AZURE_CLIENT_ID AZURE_CLIENT_SECRET AZURE_SUBSCRIPTION_ID AZURE_TENANT_ID]")
          ++ "\n")] :=
  ⟨(C8_main_always_exits_zero worldNoCredentials id).1, rfl,
    (C8_main_always_exits_zero worldNoCredentials id).2
      ("Missing environment variables "
        ++ "[AZURE_CLIENT_ID AZURE_CLIENT_SECRET AZURE_SUBSCRIPTION_ID AZURE_TENANT_ID]")
      rfl⟩

/-! ## Lemmas on whole runs of `example.go` -/

section ExampleRuns

open Example

theorem run_of_init_stop (w : World) (k : String) (a b : Bool) (c : Nat) (s1 : State)
    (h : init w (initialState k a b) = .stop c s1) : run w k a b = ⟨s1.trace, c⟩ := by
  simp only [run, prog_bind_apply, h, finish]

theorem parseJSONFromFile_isSome (w : World) (f : String)
    (h : (parseJSONFromFile w f).2 = none) : (parseJSONFromFile w f).1.isSome = true := by
  unfold parseJSONFromFile at h ⊢
  cases hr : w.readFile f with
  | error e => simp [hr] at h
  | ok text =>
    cases hj : w.jsonUnmarshal text with
    | error e => simp [hr, hj] at h
    | ok m => simp [hj]

/-! Everything before the validation is quiet: it adds neither a `Validate` call nor a
deployment call to the trace. -/

theorem quiet_pure {α : Type} (a : α) : Quiet (pure a : M α) := by
  intro s; exact ⟨[], by simp [prog_pure_apply, Outcome.state], by simp⟩

theorem quiet_bind {α β : Type} {m : M α} {f : α → M β} (hm : Quiet m)
    (hf : ∀ a, Quiet (f a)) :
    Quiet (m >>= f) := by
  intro s
  obtain ⟨l, hl, hq⟩ := hm s
  rw [prog_bind_apply]
  cases hms : m s with
  | ok a s1 =>
    rw [hms] at hl
    obtain ⟨l2, hl2, hq2⟩ := hf a s1
    refine ⟨l ++ l2, ?_, ?_⟩
    · simp only [Outcome.state] at hl
      simp only [hl2, hl, List.append_assoc]
    · intro e he
      rcases List.mem_append.mp he with h | h
      · exact hq e h
      · exact hq2 e h
  | stop c s1 =>
    rw [hms] at hl
    exact ⟨l, hl, hq⟩

theorem quiet_emit (e : Event) (h1 : e.isValidate = false) (h2 : e.isDeploy = false) :
    Quiet (emit e) := by
  intro s; exact ⟨[e], rfl, by simp [h1, h2]⟩

theorem quiet_print (t : String) : Quiet (print t) := quiet_emit _ rfl rfl

theorem quiet_exit (c : Nat) : Quiet (exit c) := by
  intro s; exact ⟨[], by simp [exit_apply, Outcome.state], by simp⟩

theorem quiet_get : Quiet Example.get := by
  intro s; exact ⟨[], by simp [get_apply, Outcome.state], by simp⟩

theorem quiet_ite {α : Type} {c : Prop} [Decidable c] {a b : M α} (ha : Quiet a) (hb : Quiet b) :
    Quiet (if c then a else b) := by
  by_cases h : c <;> simp [h, ha, hb]

theorem quiet_onErrorFail (err : Option String) (msg : String) : Quiet (onErrorFail err msg) := by
  unfold onErrorFail
  cases err with
  | none => exact quiet_pure _
  | some e =>
    exact quiet_bind (quiet_print _) fun _ => quiet_bind quiet_get fun _ =>
      quiet_bind (quiet_emit _ rfl rfl) fun _ => quiet_exit _

theorem quiet_getEnvVarOrExit (w : World) (v : String) : Quiet (getEnvVarOrExit w v) := by
  unfold getEnvVarOrExit
  repeat (first
    | exact quiet_print _
    | exact quiet_pure _
    | exact quiet_exit _
    | apply quiet_bind
    | apply quiet_ite
    | intro _
    | dsimp only)

theorem quiet_createClients (a : String) (t : ServicePrincipalToken) :
    Quiet (createClients a t) := by
  intro s; exact ⟨[], by simp [createClients, Outcome.state], by simp⟩

theorem quiet_init (w : World) : Quiet (init w) := by
  unfold init
  exact quiet_bind (quiet_getEnvVarOrExit _ _) fun _ =>
    quiet_bind (quiet_getEnvVarOrExit _ _) fun _ =>
    quiet_bind (quiet_emit _ rfl rfl) fun _ =>
    quiet_bind (quiet_onErrorFail _ _) fun _ =>
    quiet_bind (quiet_getEnvVarOrExit _ _) fun _ =>
    quiet_bind (quiet_getEnvVarOrExit _ _) fun _ =>
    quiet_bind (quiet_emit _ rfl rfl) fun _ =>
    quiet_bind (quiet_onErrorFail _ _) fun _ =>
    quiet_createClients _ _

theorem quiet_createResourceGroup (w : World) : Quiet (createResourceGroup w) := by
  unfold createResourceGroup
  exact quiet_bind (quiet_print _) fun _ => quiet_bind quiet_get fun _ =>
    quiet_bind (quiet_emit _ rfl rfl) fun _ => quiet_onErrorFail _ _

theorem quiet_buildDeploymentParameters (w : World) : Quiet (buildDeploymentParameters w) := by
  unfold buildDeploymentParameters
  repeat (first
    | exact quiet_print _
    | exact quiet_pure _
    | exact quiet_get
    | exact quiet_onErrorFail _ _
    | apply quiet_bind
    | apply quiet_ite
    | intro _
    | dsimp only)

theorem quiet_upToValidation (w : World) : Quiet (upToValidation w) :=
  quiet_bind (quiet_init w) fun _ => quiet_bind (quiet_createResourceGroup w) fun _ =>
    quiet_buildDeploymentParameters w

theorem run_eq_split (w : World) (k : String) (a b : Bool) :
    run w k a b = finish ((upToValidation w >>= fromValidation w) (initialState k a b)) := by
  unfold run upToValidation fromValidation Example.main
  simp only [prog_bind_assoc]

theorem fromValidation_rejected (w : World) (d : Deployment) (s : State)
    (h : (w.deploymentsValidate s.deploymentsClient groupName deploymentName d).2 ≠ none ∨
      (w.deploymentsValidate s.deploymentsClient groupName deploymentName d).1.Error ≠ none) :
    ∃ rest : List Event,
      finish (fromValidation w d s) =
        ⟨s.trace ++ [Event.print "Validate deployment template\n",
          Event.deploymentsValidate s.deploymentsClient groupName deploymentName d] ++ rest, 1⟩ ∧
      ∀ e ∈ rest, e.isValidate = false ∧ e.isDeploy = false := by
  simp only [fromValidation, validateDeployment, prog_bind_apply, print_apply, get_apply,
    emit_apply]
  cases h2 : (w.deploymentsValidate s.deploymentsClient groupName deploymentName d).2 with
  | some err =>
    simp only [onErrorFail_some, finish]
    exact ⟨_, by simp only [List.append_assoc, List.cons_append, List.nil_append]; rfl,
      by simp [Event.isValidate, Event.isDeploy]⟩
  | none =>
    cases h1 : (w.deploymentsValidate s.deploymentsClient groupName deploymentName d).1.Error with
    | none => simp [h1, h2] at h
    | some err =>
      simp only [onErrorFail_none, printValidationError, h1, print_apply, exit_apply,
        prog_bind_apply, finish]
      exact ⟨_, by simp only [List.append_assoc, List.cons_append, List.nil_append]; rfl,
        by simp [Event.isValidate, Event.isDeploy]⟩

theorem fromValidation_accepted (w : World) (d : Deployment) (s : State)
    (h2 : (w.deploymentsValidate s.deploymentsClient groupName deploymentName d).2 = none)
    (h1 : (w.deploymentsValidate s.deploymentsClient groupName deploymentName d).1.Error = none) :
    ∃ (rest : List Event) (code : Nat),
      finish (fromValidation w d s) =
        ⟨s.trace ++ [Event.print "Validate deployment template\n",
          Event.deploymentsValidate s.deploymentsClient groupName deploymentName d,
          Event.print "Deployment is validated! Template is syntactically correct\n",
          Event.print "Deploy\n",
          Event.deploymentsCreateOrUpdate s.deploymentsClient groupName deploymentName d]
          ++ rest, code⟩ ∧
      ∀ e ∈ rest, e.isValidate = false := by
  simp only [fromValidation, validateDeployment, prog_bind_apply, print_apply, get_apply,
    emit_apply, h2, h1, onErrorFail_none, deploy, deleteResourceGroup]
  cases hd : w.deploymentsCreateOrUpdate s.deploymentsClient groupName deploymentName d with
  | some err =>
    simp only [onErrorFail_some, finish]
    exact ⟨_, _, by simp only [List.append_assoc, List.cons_append, List.nil_append]; rfl,
      by simp [Event.isValidate]⟩
  | none =>
    simp only [onErrorFail_none]
    cases hx : w.groupsDelete s.groupsClient groupName with
    | some err =>
      simp only [onErrorFail_some, finish]
      exact ⟨_, _, by simp only [List.append_assoc, List.cons_append, List.nil_append]; rfl,
        by simp [Event.isValidate]⟩
    | none =>
      simp only [onErrorFail_none, finish]
      exact ⟨_, _, by simp only [List.append_assoc, List.cons_append, List.nil_append]; rfl,
        by simp [Event.isValidate]⟩

/-- C3: whenever `buildDeploymentParameters` returns a deployment, its `Properties` are set,
`TemplateLink` is set exactly when `useTemplateLink` holds and `Template` exactly when it
does not, `ParametersLink` is set exactly when `useParameterLink` holds and `Parameters`
exactly when it does not, and `Mode` is `Incremental`. -/
theorem C3_buildDeploymentParameters_sources (w : World) (s s1 : State) (d : Deployment)
    (h : buildDeploymentParameters w s = .ok d s1) :
    ∃ p : DeploymentProperties, d.Properties = some p ∧
      p.TemplateLink.isSome = s.useTemplateLink ∧
      p.Template.isSome = !s.useTemplateLink ∧
      p.ParametersLink.isSome = s.useParameterLink ∧
      p.Parameters.isSome = !s.useParameterLink ∧
      p.Mode = DeploymentMode.Incremental := by
  unfold buildDeploymentParameters at h
  simp only [prog_bind_apply, prog_pure_apply, print_apply, get_apply] at h
  cases hT : s.useTemplateLink <;> cases hP : s.useParameterLink <;>
    simp only [hT, hP, if_true, if_false, Bool.false_eq_true, prog_bind_apply, prog_pure_apply,
      print_apply] at h
  · cases hj : (parseJSONFromFile w "vmDeploymentTemplate.json").2 with
    | some e => simp only [hj, onErrorFail_some] at h; cases h
    | none =>
      cases hk : (getSSHkey w s.sshKeyPath).2 with
      | some e => simp only [hj, hk, onErrorFail_some, onErrorFail_none] at h; cases h
      | none =>
        simp only [hj, hk, onErrorFail_none, Outcome.ok.injEq] at h
        obtain ⟨rfl, -⟩ := h
        exact ⟨_, rfl, rfl, parseJSONFromFile_isSome w _ hj, rfl, rfl, rfl⟩
  · cases hj : (parseJSONFromFile w "vmDeploymentTemplate.json").2 with
    | some e => simp only [hj, onErrorFail_some] at h; cases h
    | none =>
      simp only [hj, onErrorFail_none, Outcome.ok.injEq] at h
      obtain ⟨rfl, -⟩ := h
      exact ⟨_, rfl, rfl, parseJSONFromFile_isSome w _ hj, rfl, rfl, rfl⟩
  · cases hk : (getSSHkey w s.sshKeyPath).2 with
    | some e => simp only [hk, onErrorFail_some, onErrorFail_none] at h; cases h
    | none =>
      simp only [hk, onErrorFail_none, Outcome.ok.injEq] at h
      obtain ⟨rfl, -⟩ := h
      exact ⟨_, rfl, rfl, rfl, rfl, rfl, rfl⟩
  · simp only [Outcome.ok.injEq] at h
    obtain ⟨rfl, -⟩ := h
    exact ⟨_, rfl, rfl, rfl, rfl, rfl, rfl⟩

/-- C3, in the sample world with local template and local parameters: the function returns,
and the deployment has the inline template and the inline parameters. -/
theorem C3_buildDeploymentParameters_sources_witness :
    ∃ (d : Deployment) (s1 : State),
      buildDeploymentParameters sampleWorld (initialState "" false false) = .ok d s1 ∧
      ∃ p : DeploymentProperties, d.Properties = some p ∧
        p.TemplateLink.isSome = false ∧
        p.Template.isSome = true ∧
        p.ParametersLink.isSome = false ∧
        p.Parameters.isSome = true ∧
        p.Mode = DeploymentMode.Incremental :=
  ⟨_, _, rfl,
    C3_buildDeploymentParameters_sources sampleWorld (initialState "" false false) _ _ rfl⟩

/-- C5: in every run of `example.go`, if a `Validate` call in the trace returned a result
whose `Error` is set, the process exits with status 1 and the trace holds no deployment
`CreateOrUpdate` call; and if the trace holds a deployment `CreateOrUpdate` call, then
before the first such call there is a `Validate` call that returned no call error and a
nil `Error`. -/
theorem C5_validation_gates_deployment (w : World) (k : String) (a b : Bool) :
    (∀ (c : DeploymentsClient) (g n : String) (d : Deployment),
      Event.deploymentsValidate c g n d ∈ (run w k a b).trace →
      (w.deploymentsValidate c g n d).1.Error ≠ none →
      (run w k a b).exitCode = 1 ∧ ∀ e ∈ (run w k a b).trace, e.isDeploy = false) ∧
    ((∃ e ∈ (run w k a b).trace, e.isDeploy = true) →
      ∃ (c : DeploymentsClient) (g n : String) (d : Deployment),
        Event.deploymentsValidate c g n d ∈
          (run w k a b).trace.takeWhile (fun e => !e.isDeploy) ∧
        (w.deploymentsValidate c g n d).2 = none ∧
        (w.deploymentsValidate c g n d).1.Error = none) := by
  rw [run_eq_split, prog_bind_apply]
  obtain ⟨l, hl, hq⟩ := quiet_upToValidation w (initialState k a b)
  have hnil : (initialState k a b).trace ++ l = l := rfl
  rw [hnil] at hl
  cases hu : upToValidation w (initialState k a b) with
  | stop code s1 =>
    rw [hu] at hl
    simp only [Outcome.state] at hl
    simp only [finish, hl]
    constructor
    · intro c g n d hmem
      have h := (hq _ hmem).1
      simp [Event.isValidate] at h
    · rintro ⟨e, he, hd⟩
      rw [(hq e he).2] at hd
      cases hd
  | ok d s1 =>
    rw [hu] at hl
    simp only [Outcome.state] at hl
    simp only []
    by_cases hacc : (w.deploymentsValidate s1.deploymentsClient groupName deploymentName d).2 = none ∧
        (w.deploymentsValidate s1.deploymentsClient groupName deploymentName d).1.Error = none
    · obtain ⟨rest, code, hf, hrest⟩ := fromValidation_accepted w d s1 hacc.1 hacc.2
      rw [hf, hl]
      constructor
      · intro c g n d2 hmem herr
        exfalso
        simp only [List.mem_append, List.mem_cons, List.mem_singleton, List.not_mem_nil,
          or_false, reduceCtorEq, false_or, Event.deploymentsValidate.injEq] at hmem
        rcases hmem with (hmem | hmem) | hmem
        · have h := (hq _ hmem).1
          simp [Event.isValidate] at h
        · obtain ⟨rfl, rfl, rfl, rfl⟩ := hmem
          exact herr hacc.2
        · have h := hrest _ hmem
          simp [Event.isValidate] at h
      · intro _
        refine ⟨s1.deploymentsClient, groupName, deploymentName, d, ?_, hacc.1, hacc.2⟩
        simp only [List.append_assoc]
        rw [List.takeWhile_append_of_pos (fun e he => by simp [(hq e he).2])]
        simp [List.takeWhile, Event.isDeploy]
    · have hrej : (w.deploymentsValidate s1.deploymentsClient groupName deploymentName d).2 ≠ none ∨
          (w.deploymentsValidate s1.deploymentsClient groupName deploymentName d).1.Error ≠ none := by
        by_cases h2 : (w.deploymentsValidate s1.deploymentsClient groupName deploymentName d).2 = none
        · exact Or.inr fun h1 => hacc ⟨h2, h1⟩
        · exact Or.inl h2
      obtain ⟨rest, hf, hrest⟩ := fromValidation_rejected w d s1 hrej
      rw [hf, hl]
      have hnodeploy : ∀ e ∈ l ++ [Event.print "Validate deployment template\n",
          Event.deploymentsValidate s1.deploymentsClient groupName deploymentName d] ++ rest,
          e.isDeploy = false := by
        intro e he
        simp only [List.mem_append, List.mem_cons, List.mem_singleton, List.not_mem_nil,
          or_false] at he
        rcases he with (he | he | he) | he
        · exact (hq e he).2
        · subst he; rfl
        · subst he; rfl
        · exact (hrest e he).2
      constructor
      · intro c g n d2 _ _
        exact ⟨rfl, hnodeploy⟩
      · rintro ⟨e, he, hd⟩
        rw [hnodeploy e he] at hd
        cases hd

/-- C5, in two worlds: where validation reports an error the run exits with status 1 without
a deployment call, and in the sample world the deployment call follows an accepted
validation. -/
theorem C5_validation_gates_deployment_witness :
    (Event.deploymentsValidate sampleDeploymentsClient groupName deploymentName sampleDeployment
        ∈ (run worldInvalidTemplate "" false false).trace ∧
      (worldInvalidTemplate.deploymentsValidate sampleDeploymentsClient groupName deploymentName
        sampleDeployment).1.Error ≠ none ∧
      (run worldInvalidTemplate "" false false).exitCode = 1 ∧
      ∀ e ∈ (run worldInvalidTemplate "" false false).trace, e.isDeploy = false) ∧
    ((∃ e ∈ (run sampleWorld "" false false).trace, e.isDeploy = true) ∧
      ∃ (c : DeploymentsClient) (g n : String) (d : Deployment),
        Event.deploymentsValidate c g n d ∈
          (run sampleWorld "" false false).trace.takeWhile (fun e => !e.isDeploy) ∧
        (sampleWorld.deploymentsValidate c g n d).2 = none ∧
        (sampleWorld.deploymentsValidate c g n d).1.Error = none) :=
  have hmem : Event.deploymentsValidate sampleDeploymentsClient groupName deploymentName
      sampleDeployment ∈ (run worldInvalidTemplate "" false false).trace :=
    List.getElem?_mem (show (run worldInvalidTemplate "" false false).trace[10]? = some _ from rfl)
  have herr : (worldInvalidTemplate.deploymentsValidate sampleDeploymentsClient groupName
      deploymentName sampleDeployment).1.Error ≠ none := fun h => Option.noConfusion h
  have hdep : ∃ e ∈ (run sampleWorld "" false false).trace, e.isDeploy = true :=
    ⟨Event.deploymentsCreateOrUpdate sampleDeploymentsClient groupName deploymentName
        sampleDeployment,
      List.getElem?_mem (show (run sampleWorld "" false false).trace[13]? = some _ from rfl),
      rfl⟩
  ⟨⟨hmem, herr,
      (C5_validation_gates_deployment worldInvalidTemplate "" false false).1 _ _ _ _ hmem herr⟩,
    ⟨hdep, (C5_validation_gates_deployment sampleWorld "" false false).2 hdep⟩⟩

/-- C7 (as stated, refuted): with `AZURE_SUBSCRIPTION_ID` and `AZURE_TENANT_ID` both empty,
the output of the run is the one line about `AZURE_SUBSCRIPTION_ID`; the variable
`AZURE_TENANT_ID` is empty and the output does not name it. -/
theorem C7_names_every_variable_counterexample :
    worldTwoMissing.getenv "AZURE_TENANT_ID" = "" ∧
    printed (run worldTwoMissing "" false false).trace =
      "Missing environment variable AZURE_SUBSCRIPTION_ID
" ∧
    ¬ names (printed (run worldTwoMissing "" false false).trace) "AZURE_TENANT_ID" := by
  refine ⟨by decide, by decide, by decide⟩

/-- C7 (amended): when one or more of the four credential variables is empty, the process
exits with status 1. Let `v` be the first empty one in the order `AZURE_SUBSCRIPTION_ID`,
`AZURE_TENANT_ID`, `AZURE_CLIENT_ID`, `AZURE_CLIENT_SECRET`. If `v` is one of the first two,
or `OAuthConfigForTenant` returned no error, the output is exactly the line
`Missing environment variable v` and no call through a resource-manager client is made. -/
theorem C7_first_empty_variable_reported (w : World) (k : String) (a b : Bool)
    (hempty : ∃ x ∈ credentialVars, w.getenv x = "") :
    (run w k a b).exitCode = 1 ∧
    ∃ v : String, firstEmpty w = some v ∧ w.getenv v = "" ∧
      ((v = "AZURE_SUBSCRIPTION_ID" ∨ v = "AZURE_TENANT_ID" ∨
          (w.oauthConfigForTenant (w.getenv "AZURE_TENANT_ID")).2 = none) →
        printed (run w k a b).trace = "Missing environment variable " ++ v ++ "\n" ∧
        ∀ e ∈ (run w k a b).trace, e.isClientCall = false) := by
  by_cases h1 : w.getenv "AZURE_SUBSCRIPTION_ID" = ""
  · have hi := run_of_init_stop w k a b 1 _
      (by
            simp only [init, prog_bind_apply, getEnvVarOrExit_apply, h1, if_true]
            rfl)
    rw [hi]
    refine ⟨rfl, "AZURE_SUBSCRIPTION_ID", ?_, h1, fun _ => ?_⟩
    · simp [firstEmpty, credentialVars, List.find?, h1]
    · simp [initialState, printed, Event.isClientCall]
  · by_cases h2 : w.getenv "AZURE_TENANT_ID" = ""
    · have hi := run_of_init_stop w k a b 1 _
        (by
            simp only [init, prog_bind_apply, getEnvVarOrExit_apply, h1, h2, if_true, if_false]
            rfl)
      rw [hi]
      refine ⟨rfl, "AZURE_TENANT_ID", ?_, h2, fun _ => ?_⟩
      · simp [firstEmpty, credentialVars, List.find?, h1, h2]
      · simp [initialState, printed, Event.isClientCall]
    · cases ho : (w.oauthConfigForTenant (w.getenv "AZURE_TENANT_ID")).2 with
      | some err =>
        have hi := run_of_init_stop w k a b 1 _
          (by
            simp only [init, prog_bind_apply, getEnvVarOrExit_apply, h1, h2, if_false,
                emit_apply, ho, onErrorFail_some]
            rfl)
        rw [hi]
        refine ⟨rfl, ?_⟩
        by_cases h3 : w.getenv "AZURE_CLIENT_ID" = ""
        · refine ⟨"AZURE_CLIENT_ID", ?_, h3, ?_⟩
          · simp [firstEmpty, credentialVars, List.find?, h1, h2, h3]
          · simp
        · by_cases h4 : w.getenv "AZURE_CLIENT_SECRET" = ""
          · refine ⟨"AZURE_CLIENT_SECRET", ?_, h4, ?_⟩
            · simp [firstEmpty, credentialVars, List.find?, h1, h2, h3, h4]
            · simp
          · exfalso
            obtain ⟨x, hx, hx2⟩ := hempty
            simp only [credentialVars, List.mem_cons, List.mem_singleton, List.not_mem_nil,
              or_false] at hx
            rcases hx with rfl | rfl | rfl | rfl <;> contradiction
      | none =>
        by_cases h3 : w.getenv "AZURE_CLIENT_ID" = ""
        · have hi := run_of_init_stop w k a b 1 _
            (by
            simp only [init, prog_bind_apply, getEnvVarOrExit_apply, h1, h2, h3, if_false, if_true,
                  emit_apply, ho, onErrorFail_none]
            rfl)
          rw [hi]
          refine ⟨rfl, "AZURE_CLIENT_ID", ?_, h3, fun _ => ?_⟩
          · simp [firstEmpty, credentialVars, List.find?, h1, h2, h3]
          · simp [initialState, printed, Event.isClientCall]
        · by_cases h4 : w.getenv "AZURE_CLIENT_SECRET" = ""
          · have hi := run_of_init_stop w k a b 1 _
              (by
            simp only [init, prog_bind_apply, getEnvVarOrExit_apply, h1, h2, h3, h4, if_false,
                    if_true, emit_apply, ho, onErrorFail_none]
            rfl)
            rw [hi]
            refine ⟨rfl, "AZURE_CLIENT_SECRET", ?_, h4, fun _ => ?_⟩
            · simp [firstEmpty, credentialVars, List.find?, h1, h2, h3, h4]
            · simp [initialState, printed, Event.isClientCall]
          · exfalso
            obtain ⟨x, hx, hx2⟩ := hempty
            simp only [credentialVars, List.mem_cons, List.mem_singleton, List.not_mem_nil,
              or_false] at hx
            rcases hx with rfl | rfl | rfl | rfl <;> contradiction

/-- C7 (amended), in the world where only `AZURE_CLIENT_SECRET` is empty. -/
theorem C7_first_empty_variable_reported_witness :
    (∃ x ∈ credentialVars, worldNoSecret.getenv x = "") ∧
    (run worldNoSecret "" false false).exitCode = 1 ∧
    ∃ v : String, firstEmpty worldNoSecret = some v ∧ worldNoSecret.getenv v = "" ∧
      ((v = "AZURE_SUBSCRIPTION_ID" ∨ v = "AZURE_TENANT_ID" ∨
          (worldNoSecret.oauthConfigForTenant (worldNoSecret.getenv "AZURE_TENANT_ID")).2 = none) →
        printed (run worldNoSecret "" false false).trace =
          "Missing environment variable " ++ v ++ "\n" ∧
        ∀ e ∈ (run worldNoSecret "" false false).trace, e.isClientCall = false) :=
  ⟨⟨"AZURE_CLIENT_SECRET", by decide, by decide⟩,
    C7_first_empty_variable_reported worldNoSecret "" false false
      ⟨"AZURE_CLIENT_SECRET", by decide, by decide⟩⟩

/-- C9 (the code at the failing input): when `Validate` returns a result whose `Error` is
set, the run exits with status 1 and its calls through the resource-manager clients are
the creation of the resource group and the validation, with no `Delete` call after them. -/
theorem C9_validation_error_skips_delete :
    (run worldInvalidTemplate "" false false).exitCode = 1 ∧
    (run worldInvalidTemplate "" false false).trace.any Event.isGroupsDelete = false ∧
    (run worldInvalidTemplate "" false false).trace.filter Event.isClientCall =
      [Event.groupsCreateOrUpdate sampleGroupsClient groupName ⟨some "westus"⟩,
       Event.deploymentsValidate sampleDeploymentsClient groupName deploymentName
         sampleDeployment] := by
  refine ⟨by decide, by decide, rfl⟩

/-- C10 (the code at the failing input): when `OAuthConfigForTenant` returns an error, the run
calls `Delete` for `groupName` through the groups client, which is still at its zero value,
and exits with status 1. -/
theorem C10_oauth_failure_calls_delete :
    (run worldOAuthFails "" false false).trace =
      [Event.oauthConfigForTenant "tenant-1",
       Event.print "OAuthConfigForTenant failed: parse failure\n",
       Event.groupsDelete ⟨"", none⟩ groupName] ∧
    (run worldOAuthFails "" false false).exitCode = 1 := by
  constructor <;> rfl

end ExampleRuns
